import Mathlib

/-!
Verification of the `flaskconmysql` blog application (`app.py`).

The web layer (`index`, `add_post`, `add_user`) is embedded directly from
`app.py`.  The schema module and persistence layer live in `models.py`,
which is not part of the sources; those definitions are modelled from the
specification (sections 3 and 4.2) and marked as such.
Each HTTP handler is embedded as a function from the store state to a
response paired with the store state after the request.
-/

/-- Modelled from the spec: the User record shape of the missing `models.py`
(section 3): unique identifier, unique username, email. -/
structure User where
  id : String
  username : String
  email : String
deriving DecidableEq, Repr

/-- Modelled from the spec: the Post record shape of the missing `models.py`
(section 3): unique identifier, owning user identifier (foreign key to
User), title, content, creation date.  Calendar dates are abstracted to
natural numbers. -/
structure Post where
  id : String
  user_id : String
  title : String
  content : String
  created_at : Nat
deriving DecidableEq, Repr

/-- Modelled from the spec: the persisted state, two relational tables
`user` and `post` (section 6). -/
structure Store where
  users : List User
  posts : List Post
deriving DecidableEq, Repr

/-- Modelled from the spec: the StorageError failure class of the
persistence layer (sections 4.2 and 7). -/
inductive StorageError where
  | constraintViolation
deriving DecidableEq, Repr

/-- A response of the web layer: a rendered template (with the post/author
pairs handed to it), an HTTP redirect, a plain-text body, a request-format
error (missing form field, HTTP 400), or a storage failure surfaced as a
generic server error. -/
inductive Response where
  | page (template : String) (posts : List (Post × User))
  | redirect (target : String)
  | text (body : String)
  | badRequest
  | serverError (e : StorageError)
deriving DecidableEq, Repr

/-- Modelled from the spec: `findUserByUsername` of the persistence layer
(section 4.2), the embedding of `User.query.filter_by(username=...).first()`:
a point lookup returning the first matching row or absent. -/
def findUserByUsername (s : Store) (username : String) : Option User :=
  s.users.find? (fun u => u.username == username)

/-- Modelled from the spec: `listPostsWithAuthors` of the persistence layer
(section 4.2), the embedding of `Post.query.join(User).all()` in `index`:
an inner join of the post table with the user table on the owning-user
foreign key, pairing each post with its owning user.  A post whose
`user_id` matches no user row produces no joined row. -/
def listPostsWithAuthors (s : Store) : List (Post × User) :=
  s.posts.filterMap (fun p =>
    (s.users.find? (fun u => u.id == p.user_id)).map (fun u => (p, u)))

/-- Modelled from the spec: `createPost` of the persistence layer
(section 4.2): inserts a new Post row, failing with a StorageError on
constraint violation (unknown `userId` against the foreign key), each
create its own atomic unit committed immediately. -/
def createPost (s : Store) (newId userId title content : String)
    (createdAt : Nat) : Except StorageError Store :=
  if s.users.any (fun u => u.id == userId) then
    .ok { s with posts := s.posts ++
      [{ id := newId, user_id := userId, title := title, content := content,
         created_at := createdAt }] }
  else
    .error .constraintViolation

/-- Submitted form data: an association list of field names to values, as
in `request.form`. -/
def formGet (form : List (String × String)) (key : String) : Option String :=
  (form.find? (fun kv => kv.1 == key)).map (fun kv => kv.2)

/-- The hardcoded owning-user identifier of `add_post` (`app.py` line 32). -/
def hardcodedUserId : String := "aec92dd8-79dd-4b22-9deb-a2af00d568c8"

/-- `GET /` (`index`, `app.py` lines 19-23): queries all posts with their
authors and renders `index.html`; the store is not modified. -/
def index (s : Store) : Response × Store :=
  (.page "index.html" (listPostsWithAuthors s), s)

/-- `GET /add-post` (`add_post` with `request.method` not `POST`,
`app.py` lines 25-26 and 49): renders the empty form; the store is not
modified. -/
def addPostGet (s : Store) : Response × Store :=
  (.page "add_post.html" [], s)

/-- `POST /add-post` (`add_post`, `app.py` lines 27-47): reads `title` and
`content` from the form (a missing field raises the request-format error
before anything is persisted), builds a new Post with a fresh identifier
`newId`, the hardcoded owner, and today's date, commits it, and redirects
to `/`.  A storage failure is surfaced as a server error with the store
unchanged. -/
def addPostPost (form : List (String × String)) (newId : String)
    (today : Nat) (s : Store) : Response × Store :=
  match formGet form "title", formGet form "content" with
  | some title, some content =>
    match createPost s newId hardcodedUserId title content today with
    | .ok s' => (.redirect "/", s')
    | .error e => (.serverError e, s)
  | _, _ => (.badRequest, s)

/-- `GET /add-user` (`add_user`, `app.py` lines 51-63): if no user with
username `rishabh` exists, inserts one with a fresh identifier `newId` and
the hardcoded username and email and confirms; otherwise reports that the
user already exists without touching the store. -/
def addUser (newId : String) (s : Store) : Response × Store :=
  match findUserByUsername s "rishabh" with
  | none =>
    (.text "User rishabh added.",
     { s with users := s.users ++
       [{ id := newId, username := "rishabh", email := "rishabh@example.com" }] })
  | some _ => (.text "User already exists.", s)

/-- Number of rows of the user table with username `rishabh`. -/
def countRishabh (s : Store) : Nat :=
  s.users.countP (fun u => u.username == "rishabh")

/-- The store only grows: every row present before is still present, at its
old position and with its old field values, after. -/
def storeOnlyGrows (s s' : Store) : Prop :=
  (∃ l, s'.users = s.users ++ l) ∧ (∃ l, s'.posts = s.posts ++ l)

/-- Characterisation of membership in the joined listing: a pair `(p, u)`
is produced exactly when `p` is a post row and `u` is the first user row
whose id matches the post's owning-user identifier. -/
theorem mem_listing_iff (s : Store) (pu : Post × User) :
    pu ∈ listPostsWithAuthors s ↔
      pu.1 ∈ s.posts ∧
        s.users.find? (fun u => u.id == pu.1.user_id) = some pu.2 := by
  constructor
  · intro hmem
    rcases List.mem_filterMap.mp hmem with ⟨a, ha, hf⟩
    rcases Option.map_eq_some'.mp hf with ⟨u, hu, hpu⟩
    cases hpu
    exact ⟨ha, hu⟩
  · rintro ⟨h1, h2⟩
    exact List.mem_filterMap.mpr ⟨pu.1, h1, by rw [h2]; rfl⟩

/-- When both form fields are present and some user row carries the
hardcoded owner id, `POST /add-post` appends exactly one post row built
from the submitted fields and redirects to `/`. -/
theorem addPost_ok (s : Store) (form : List (String × String))
    (title content newId : String) (today : Nat)
    (hT : formGet form "title" = some title)
    (hC : formGet form "content" = some content)
    (hOwner : ∃ u ∈ s.users, u.id = hardcodedUserId) :
    addPostPost form newId today s =
      (Response.redirect "/",
       { users := s.users,
         posts := s.posts ++
           [{ id := newId, user_id := hardcodedUserId, title := title,
              content := content, created_at := today }] }) := by
  rcases hOwner with ⟨u, hu, hid⟩
  have hany : s.users.any (fun u => u.id == hardcodedUserId) = true :=
    List.any_eq_true.mpr ⟨u, hu, beq_iff_eq.mpr hid⟩
  unfold addPostPost
  rw [hT, hC]
  unfold createPost
  rw [hany]
  rfl

/-- `POST /add-post` always either rejects the request with the store
untouched (missing field, or foreign-key violation) or appends exactly one
post row and redirects. -/
theorem addPostPost_cases (form : List (String × String)) (newId : String)
    (today : Nat) (s : Store) :
    addPostPost form newId today s = (Response.badRequest, s) ∨
    addPostPost form newId today s =
      (Response.serverError .constraintViolation, s) ∨
    ∃ title content,
      addPostPost form newId today s =
        (Response.redirect "/",
         { users := s.users,
           posts := s.posts ++
             [{ id := newId, user_id := hardcodedUserId, title := title,
                content := content, created_at := today }] }) := by
  unfold addPostPost
  cases hT : formGet form "title" with
  | none => exact Or.inl rfl
  | some title =>
    cases hC : formGet form "content" with
    | none => exact Or.inl rfl
    | some content =>
      unfold createPost
      by_cases hA : s.users.any (fun u => u.id == hardcodedUserId) = true
      · rw [hA]
        exact Or.inr (Or.inr ⟨title, content, rfl⟩)
      · rw [Bool.of_not_eq_true hA]
        exact Or.inr (Or.inl rfl)

/-- Claim C5: no route ever updates or deletes an existing User or Post
row; each handler leaves every pre-existing row in place and at most
appends new rows. -/
theorem C5_no_update_or_delete (s : Store) (form : List (String × String))
    (newPostId newUserId : String) (today : Nat) :
    storeOnlyGrows s (index s).2 ∧
    storeOnlyGrows s (addPostGet s).2 ∧
    storeOnlyGrows s (addPostPost form newPostId today s).2 ∧
    storeOnlyGrows s (addUser newUserId s).2 := by
  refine ⟨⟨⟨[], by simp [index]⟩, ⟨[], by simp [index]⟩⟩,
    ⟨⟨[], by simp [addPostGet]⟩, ⟨[], by simp [addPostGet]⟩⟩, ?_, ?_⟩
  · rcases addPostPost_cases form newPostId today s with h | h | ⟨t, c, h⟩ <;>
      rw [h]
    · exact ⟨⟨[], by simp⟩, ⟨[], by simp⟩⟩
    · exact ⟨⟨[], by simp⟩, ⟨[], by simp⟩⟩
    · exact ⟨⟨[], by simp⟩, ⟨_, rfl⟩⟩
  · unfold addUser
    cases hf : findUserByUsername s "rishabh" with
    | none => exact ⟨⟨_, rfl⟩, ⟨[], by simp⟩⟩
    | some w => exact ⟨⟨[], by simp⟩, ⟨[], by simp⟩⟩

/-- Claim C8: `GET /` and `GET /add-post` are read-only; both tables are
exactly unchanged by either handler. -/
theorem C8_get_routes_read_only (s : Store) :
    (index s).2 = s ∧ (addPostGet s).2 = s :=
  ⟨rfl, rfl⟩

/-- Claim C9: when `title` or `content` is missing from the form,
`POST /add-post` fails before any persistence operation, leaving the store
exactly unchanged. -/
theorem C9_missing_field_atomic (s : Store) (form : List (String × String))
    (newId : String) (today : Nat)
    (h : formGet form "title" = none ∨ formGet form "content" = none) :
    addPostPost form newId today s = (Response.badRequest, s) := by
  unfold addPostPost
  rcases h with h | h
  · rw [h]
  · rw [h]
    cases formGet form "title" <;> rfl

/-- Claim C9 witness: a concrete request missing the `content` field
leaves a concrete store unchanged. -/
theorem C9_missing_field_atomic_witness :
    addPostPost [("title", "t")] "p1" 3 (Store.mk [] []) =
      (Response.badRequest, Store.mk [] []) :=
  C9_missing_field_atomic (Store.mk [] []) [("title", "t")] "p1" 3
    (Or.inr (by decide))

/-- Claim C7: `POST /add-post` answers with the request-format error
exactly when a required form field is absent, and such a failure is fatal:
the store is unchanged and no redirect is issued. -/
theorem C7_request_format_error_iff (s : Store)
    (form : List (String × String)) (newId : String) (today : Nat) :
    ((addPostPost form newId today s).1 = Response.badRequest ↔
      (formGet form "title" = none ∨ formGet form "content" = none)) ∧
    ((formGet form "title" = none ∨ formGet form "content" = none) →
      (addPostPost form newId today s).2 = s ∧
      ∀ target, (addPostPost form newId today s).1 ≠
        Response.redirect target) := by
  unfold addPostPost
  cases hT : formGet form "title" with
  | none => simp
  | some title =>
    cases hC : formGet form "content" with
    | none => simp
    | some content =>
      cases hcp : createPost s newId hardcodedUserId title content today with
      | ok s' => simp [hcp]
      | error e => simp [hcp]

/-- Claim C7 witness: at a concrete well-formed request the response is
not the request-format error, and at a concrete request missing `content`
it is, with the store unchanged and no redirect. -/
theorem C7_request_format_error_iff_witness :
    ((addPostPost [("title", "t")] "p1" 3 (Store.mk [] [])).1 =
        Response.badRequest ↔
      (formGet [("title", "t")] "title" = none ∨
        formGet [("title", "t")] "content" = none)) ∧
    ((formGet [("title", "t")] "title" = none ∨
        formGet [("title", "t")] "content" = none) →
      (addPostPost [("title", "t")] "p1" 3 (Store.mk [] [])).2 =
          Store.mk [] [] ∧
      ∀ target, (addPostPost [("title", "t")] "p1" 3 (Store.mk [] [])).1 ≠
        Response.redirect target) :=
  C7_request_format_error_iff (Store.mk [] []) [("title", "t")] "p1" 3

/-- Claim C6: on any store already containing a user named `rishabh`,
`GET /add-user` answers with the plain-text already-exists message and
leaves the entire store unchanged. -/
theorem C6_already_exists_no_mutation (s : Store) (newId : String)
    (h : ∃ u ∈ s.users, u.username = "rishabh") :
    addUser newId s = (Response.text "User already exists.", s) := by
  rcases h with ⟨u, hu, hname⟩
  have hsome : (s.users.find? (fun v => v.username == "rishabh")).isSome :=
    List.find?_isSome.mpr ⟨u, hu, beq_iff_eq.mpr hname⟩
  rcases Option.isSome_iff_exists.mp hsome with ⟨w, hw⟩
  unfold addUser findUserByUsername
  rw [hw]

/-- Claim C6 witness: on a concrete store holding the user `rishabh`, the
handler reports the user as existing and returns the store untouched. -/
theorem C6_already_exists_no_mutation_witness :
    addUser "u2" (Store.mk [User.mk "u1" "rishabh" "rishabh@example.com"] []) =
      (Response.text "User already exists.",
       Store.mk [User.mk "u1" "rishabh" "rishabh@example.com"] []) :=
  C6_already_exists_no_mutation
    (Store.mk [User.mk "u1" "rishabh" "rishabh@example.com"] []) "u2"
    ⟨User.mk "u1" "rishabh" "rishabh@example.com", by decide, rfl⟩

/-- Claim C2: `GET /add-user` is idempotent.  On any store satisfying the
unique-username schema constraint (at most one row named `rishabh`), two
successive calls leave exactly one user named `rishabh`; the second call
always reports that the user exists, and when the username was initially
absent the first call confirms the insertion with a differing response. -/
theorem C2_addUser_idempotent (s : Store) (id1 id2 : String)
    (h : countRishabh s ≤ 1) :
    countRishabh (addUser id2 (addUser id1 s).2).2 = 1 ∧
    (addUser id2 (addUser id1 s).2).1 = Response.text "User already exists." ∧
    (findUserByUsername s "rishabh" = none →
      (addUser id1 s).1 = Response.text "User rishabh added." ∧
      (addUser id1 s).1 ≠ (addUser id2 (addUser id1 s).2).1) := by
  cases hf : findUserByUsername s "rishabh" with
  | none =>
    have e1 : addUser id1 s =
        (Response.text "User rishabh added.",
         { s with users := s.users ++
             [User.mk id1 "rishabh" "rishabh@example.com"] }) := by
      unfold addUser
      rw [hf]
    have hf2 : findUserByUsername
        { s with users := s.users ++
            [User.mk id1 "rishabh" "rishabh@example.com"] } "rishabh" =
        some (User.mk id1 "rishabh" "rishabh@example.com") := by
      unfold findUserByUsername at hf ⊢
      rw [List.find?_append, hf]
      simp [List.find?_cons]
    have e2 : addUser id2 (addUser id1 s).2 =
        (Response.text "User already exists.", (addUser id1 s).2) := by
      rw [e1]
      unfold addUser
      rw [hf2]
    rw [e2, e1]
    have h0 : s.users.countP (fun u => u.username == "rishabh") = 0 :=
      List.countP_eq_zero.mpr fun u hu =>
        by simpa using List.find?_eq_none.mp hf u hu
    refine ⟨?_, rfl, fun _ => ⟨rfl, by simp⟩⟩
    unfold countRishabh
    simp [List.countP_append, h0, List.countP_cons]
  | some w =>
    have hf' : s.users.find? (fun u => u.username == "rishabh") = some w := hf
    have e1 : addUser id1 s = (Response.text "User already exists.", s) := by
      unfold addUser
      rw [hf]
    have e2 : addUser id2 (addUser id1 s).2 =
        (Response.text "User already exists.", s) := by
      rw [e1]
      unfold addUser
      rw [hf]
    have hmem : w ∈ s.users := List.mem_of_find?_eq_some hf'
    have hpw := List.find?_some hf'
    have hpos : 0 < countRishabh s := List.countP_pos_iff.mpr ⟨w, hmem, hpw⟩
    rw [e2]
    refine ⟨?_, rfl, fun habs => (Option.some_ne_none w habs).elim⟩
    show countRishabh s = 1
    omega

/-- Claim C2 witness: on the concrete empty store, two calls leave exactly
one `rishabh` row, the first call confirms the insertion, and the second
call answers differently that the user exists. -/
theorem C2_addUser_idempotent_witness :
    countRishabh (addUser "u2" (addUser "u1" (Store.mk [] [])).2).2 = 1 ∧
    (addUser "u2" (addUser "u1" (Store.mk [] [])).2).1 =
      Response.text "User already exists." ∧
    (findUserByUsername (Store.mk [] []) "rishabh" = none →
      (addUser "u1" (Store.mk [] [])).1 =
        Response.text "User rishabh added." ∧
      (addUser "u1" (Store.mk [] [])).1 ≠
        (addUser "u2" (addUser "u1" (Store.mk [] [])).2).1) :=
  C2_addUser_idempotent (Store.mk [] []) "u1" "u2" (by decide)

/-- Claim C1 counterexample: on the empty store (no user carries the
hardcoded owner id) a submitted (title, content) pair does not appear in
the listing of a subsequent `GET /` — the insert is rejected by the
foreign-key constraint, so the listing stays empty. -/
theorem C1_counterexample :
    ¬ ∃ pu ∈ listPostsWithAuthors
        (addPostPost [("title", "a"), ("content", "b")] "p1" 0
          (Store.mk [] [])).2,
      pu.1.title = "a" ∧ pu.1.content = "b" := by
  decide

/-- Claim C1 (amended): provided some user row carries the hardcoded owner
id, every (title, content) submitted to `POST /add-post` appears, with
exactly the submitted title and content, in the listing returned by a
subsequent `GET /`. -/
theorem C1_submitted_post_listed (s : Store) (form : List (String × String))
    (title content newId : String) (today : Nat)
    (hT : formGet form "title" = some title)
    (hC : formGet form "content" = some content)
    (hOwner : ∃ u ∈ s.users, u.id = hardcodedUserId) :
    ∃ pu ∈ listPostsWithAuthors (addPostPost form newId today s).2,
      pu.1.title = title ∧ pu.1.content = content := by
  rw [addPost_ok s form title content newId today hT hC hOwner]
  rcases hOwner with ⟨u, hu, hid⟩
  have hsome : (s.users.find? (fun v => v.id == hardcodedUserId)).isSome :=
    List.find?_isSome.mpr ⟨u, hu, beq_iff_eq.mpr hid⟩
  rcases Option.isSome_iff_exists.mp hsome with ⟨w, hw⟩
  refine ⟨({ id := newId, user_id := hardcodedUserId, title := title,
             content := content, created_at := today }, w), ?_, rfl, rfl⟩
  exact (mem_listing_iff _ _).mpr ⟨by simp, hw⟩

/-- Claim C1 witness: on a concrete store holding the hardcoded owner, a
concrete submission shows up in the subsequent listing. -/
theorem C1_submitted_post_listed_witness :
    ∃ pu ∈ listPostsWithAuthors
        (addPostPost [("title", "t"), ("content", "c")] "p1" 5
          (Store.mk
            [User.mk "aec92dd8-79dd-4b22-9deb-a2af00d568c8" "rishabh"
              "rishabh@example.com"] [])).2,
      pu.1.title = "t" ∧ pu.1.content = "c" :=
  C1_submitted_post_listed
    (Store.mk
      [User.mk "aec92dd8-79dd-4b22-9deb-a2af00d568c8" "rishabh"
        "rishabh@example.com"] [])
    [("title", "t"), ("content", "c")] "t" "c" "p1" 5 (by decide) (by decide)
    ⟨User.mk "aec92dd8-79dd-4b22-9deb-a2af00d568c8" "rishabh"
      "rishabh@example.com", by simp, rfl⟩

/-- Claim C3 counterexample: a store holding a post whose owning-user
identifier references no user row — the inner join drops that post from
the listing, so not every post of the store is returned. -/
theorem C3_counterexample :
    ∃ p ∈ (Store.mk [] [Post.mk "p1" "u-missing" "t" "c" 0]).posts,
      ∀ u : User,
        (p, u) ∉ listPostsWithAuthors
          (Store.mk [] [Post.mk "p1" "u-missing" "t" "c" 0]) := by
  refine ⟨Post.mk "p1" "u-missing" "t" "c" 0, by simp, fun u hmem => ?_⟩
  have hnil : listPostsWithAuthors
      (Store.mk [] [Post.mk "p1" "u-missing" "t" "c" 0]) = [] := rfl
  rw [hnil] at hmem
  cases hmem

/-- Claim C3 (amended): `GET /` pairs each returned post with a user row
that exists and carries the post's owning identifier (no null-filling),
and it returns exactly the posts whose owning identifier references an
existing user row; a post whose owner is absent is dropped by the inner
join. -/
theorem C3_join_semantics (s : Store) :
    (∀ pu ∈ listPostsWithAuthors s,
       pu.1 ∈ s.posts ∧ pu.2 ∈ s.users ∧ pu.2.id = pu.1.user_id) ∧
    (∀ p ∈ s.posts, (∃ u ∈ s.users, u.id = p.user_id) →
       ∃ u, (p, u) ∈ listPostsWithAuthors s) := by
  constructor
  · intro pu hmem
    rcases (mem_listing_iff s pu).mp hmem with ⟨h1, h2⟩
    have hb := List.find?_some h2
    exact ⟨h1, List.mem_of_find?_eq_some h2, beq_iff_eq.mp hb⟩
  · rintro p hp ⟨u, hu, hid⟩
    have hsome : (s.users.find? (fun v => v.id == p.user_id)).isSome :=
      List.find?_isSome.mpr ⟨u, hu, beq_iff_eq.mpr hid⟩
    rcases Option.isSome_iff_exists.mp hsome with ⟨w, hw⟩
    exact ⟨w, (mem_listing_iff s (p, w)).mpr ⟨hp, hw⟩⟩

/-- Claim C3 witness: the join characterisation at a concrete store with
one user owning one post. -/
theorem C3_join_semantics_witness :
    (∀ pu ∈ listPostsWithAuthors
        (Store.mk [User.mk "u1" "rishabh" "rishabh@example.com"]
          [Post.mk "p1" "u1" "t" "c" 0]),
       pu.1 ∈ [Post.mk "p1" "u1" "t" "c" 0] ∧
       pu.2 ∈ [User.mk "u1" "rishabh" "rishabh@example.com"] ∧
       pu.2.id = pu.1.user_id) ∧
    (∀ p ∈ [Post.mk "p1" "u1" "t" "c" 0],
       (∃ u ∈ [User.mk "u1" "rishabh" "rishabh@example.com"],
          u.id = p.user_id) →
       ∃ u, (p, u) ∈ listPostsWithAuthors
          (Store.mk [User.mk "u1" "rishabh" "rishabh@example.com"]
            [Post.mk "p1" "u1" "t" "c" 0])) :=
  C3_join_semantics
    (Store.mk [User.mk "u1" "rishabh" "rishabh@example.com"]
      [Post.mk "p1" "u1" "t" "c" 0])

/-- Claim C4 counterexample: on the empty store a well-formed submission
is rejected by the foreign-key constraint — no post row is persisted and
no redirect is issued, so the handler does not behave independently of the
store state. -/
theorem C4_counterexample :
    (addPostPost [("title", "a"), ("content", "b")] "p1" 0
        (Store.mk [] [])).1 ≠ Response.redirect "/" ∧
    (addPostPost [("title", "a"), ("content", "b")] "p1" 0
        (Store.mk [] [])).2.posts = [] := by
  decide

/-- Claim C4 (amended): provided some user row carries the hardcoded owner
id, `POST /add-post` with both fields present persists exactly one new
post row — owner the fixed constant independent of the request, creation
date the current date — and returns a redirect to `/`. -/
theorem C4_persists_one_post (s : Store) (form : List (String × String))
    (title content newId : String) (today : Nat)
    (hT : formGet form "title" = some title)
    (hC : formGet form "content" = some content)
    (hOwner : ∃ u ∈ s.users, u.id = hardcodedUserId) :
    addPostPost form newId today s =
      (Response.redirect "/",
       { users := s.users,
         posts := s.posts ++
           [{ id := newId, user_id := hardcodedUserId, title := title,
              content := content, created_at := today }] }) :=
  addPost_ok s form title content newId today hT hC hOwner

/-- Claim C4 witness: a concrete submission on a concrete store holding
the hardcoded owner appends exactly one post row and redirects. -/
theorem C4_persists_one_post_witness :
    addPostPost [("title", "t"), ("content", "c")] "p1" 5
        (Store.mk
          [User.mk "aec92dd8-79dd-4b22-9deb-a2af00d568c8" "rishabh"
            "rishabh@example.com"] []) =
      (Response.redirect "/",
       Store.mk
         [User.mk "aec92dd8-79dd-4b22-9deb-a2af00d568c8" "rishabh"
           "rishabh@example.com"]
         [Post.mk "p1" hardcodedUserId "t" "c" 5]) :=
  C4_persists_one_post
    (Store.mk
      [User.mk "aec92dd8-79dd-4b22-9deb-a2af00d568c8" "rishabh"
        "rishabh@example.com"] [])
    [("title", "t"), ("content", "c")] "t" "c" "p1" 5 (by decide) (by decide)
    ⟨User.mk "aec92dd8-79dd-4b22-9deb-a2af00d568c8" "rishabh"
      "rishabh@example.com", by simp, rfl⟩

/-- Claim C10 counterexample: on the empty store even a submission is not
persisted (foreign-key rejection), so acceptance is not unconditional. -/
theorem C10_counterexample :
    (addPostPost [("title", ""), ("content", "")] "p1" 0
        (Store.mk [] [])).2.posts = [] ∧
    (addPostPost [("title", ""), ("content", "")] "p1" 0
        (Store.mk [] [])).1 ≠ Response.redirect "/" := by
  decide

/-- Claim C10 (amended): the handler performs no validation of field
content: provided some user row carries the hardcoded owner id, every
submitted title and content — the empty string included for either or
both — is accepted and persisted verbatim. -/
theorem C10_no_content_validation (s : Store) (title content newId : String)
    (today : Nat) (hOwner : ∃ u ∈ s.users, u.id = hardcodedUserId) :
    (addPostPost [("title", title), ("content", content)] newId today s).1 =
        Response.redirect "/" ∧
    (addPostPost [("title", title), ("content", content)]
        newId today s).2.posts =
      s.posts ++
        [{ id := newId, user_id := hardcodedUserId, title := title,
           content := content, created_at := today }] := by
  have hT : formGet [("title", title), ("content", content)] "title" =
      some title := rfl
  have hC : formGet [("title", title), ("content", content)] "content" =
      some content := rfl
  rw [addPost_ok s _ title content newId today hT hC hOwner]
  exact ⟨rfl, rfl⟩

/-- Claim C10 witness: empty title and empty content are accepted and
persisted verbatim on a concrete store holding the hardcoded owner. -/
theorem C10_no_content_validation_witness :
    (addPostPost [("title", ""), ("content", "")] "p1" 5
        (Store.mk
          [User.mk "aec92dd8-79dd-4b22-9deb-a2af00d568c8" "rishabh"
            "rishabh@example.com"] [])).1 = Response.redirect "/" ∧
    (addPostPost [("title", ""), ("content", "")] "p1" 5
        (Store.mk
          [User.mk "aec92dd8-79dd-4b22-9deb-a2af00d568c8" "rishabh"
            "rishabh@example.com"] [])).2.posts =
      [] ++ [Post.mk "p1" hardcodedUserId "" "" 5] :=
  C10_no_content_validation
    (Store.mk
      [User.mk "aec92dd8-79dd-4b22-9deb-a2af00d568c8" "rishabh"
        "rishabh@example.com"] []) "" "" "p1" 5
    ⟨User.mk "aec92dd8-79dd-4b22-9deb-a2af00d568c8" "rishabh"
      "rishabh@example.com", by simp, rfl⟩

/-- Claim C5 witness: at a concrete store and request inputs, every
handler only grows the store. -/
theorem C5_no_update_or_delete_witness :
    storeOnlyGrows (Store.mk [] [])
      (index (Store.mk [] [])).2 ∧
    storeOnlyGrows (Store.mk [] [])
      (addPostGet (Store.mk [] [])).2 ∧
    storeOnlyGrows (Store.mk [] [])
      (addPostPost [("title", "t"), ("content", "c")] "p1" 5
        (Store.mk [] [])).2 ∧
    storeOnlyGrows (Store.mk [] []) (addUser "u1" (Store.mk [] [])).2 :=
  C5_no_update_or_delete (Store.mk [] [])
    [("title", "t"), ("content", "c")] "p1" "u1" 5

/-- Claim C8 witness: at a concrete store both GET handlers return the
store untouched. -/
theorem C8_get_routes_read_only_witness :
    (index (Store.mk [] [Post.mk "p1" "u1" "t" "c" 0])).2 =
        Store.mk [] [Post.mk "p1" "u1" "t" "c" 0] ∧
    (addPostGet (Store.mk [] [Post.mk "p1" "u1" "t" "c" 0])).2 =
        Store.mk [] [Post.mk "p1" "u1" "t" "c" 0] :=
  C8_get_routes_read_only (Store.mk [] [Post.mk "p1" "u1" "t" "c" 0])
